import Mathlib

/-!
Verification development for the go-makefile-gen repository (package mfile).

The definitions below are a shallow embedding of the functions in
cmd/gomakefile.go (package mfile: GenerateMakefile, AddTargetToMakefile,
AddTargetWithContentToMakefile, AddTargetWithDependenciesToMakefile,
AddTargetWithContentAndDependenciesToMakefile, mkFilePath, containsSpace,
the template constants) together with the pieces of the Go standard
library they rely on: filepath.Clean / filepath.Join (Unix rules),
strings.Contains / strings.Join, html/template rendering of the fixed
template constants, and the osFileSystem operations from mfile/fs.go
(Stat, ReadFile, WriteFile, OpenFile in append mode, IsNotExist, IsDir),
which are modelled as pure operations over an explicit file-system state.
Each operation additionally returns the trace of file-system calls it
performed, so that claims about the order of validation and I/O are
statable.
-/

/-- Model of Go strings.Contains(s, " ") as used by mfile.containsSpace:
true iff the string contains the ASCII space character U+0020. -/
def containsSpace (s : String) : Bool := s.data.contains ' '

/-- The characters that html/template replaces in HTML text context
(htmlReplacementTable in html/template's html.go): NUL, double quote,
ampersand, single quote, plus, less-than, equals, greater-than, backtick.
All other characters are kept unchanged. -/
def htmlEscapeChar (c : Char) : String :=
  if c = Char.ofNat 0 then "\uFFFD"
  else if c = '\"' then "&#34;"
  else if c = '&' then "&amp;"
  else if c = Char.ofNat 39 then "&#39;"
  else if c = '+' then "&#43;"
  else if c = '<' then "&lt;"
  else if c = '=' then "&#61;"
  else if c = '>' then "&gt;"
  else if c = Char.ofNat 96 then "&#96;"
  else String.singleton c

/-- Model of html/template's htmlEscaper applied to a string value
interpolated in text context (the context of every action in the mfile
template constants, which contain no HTML markup). -/
def htmlEscape (s : String) : String := String.join (s.data.map htmlEscapeChar)

/-- The fixed boilerplate written by GenerateMakefile (the Go constant
generateTemplate, a raw string literal, so the backslash-n inside the
echo line is the two characters backslash and n). -/
def generateTemplate : String :=
  ".PHONY: help\n## help: shows this help message\nhelp:\n\t@ echo \"Usage: make [target]\\n\"\n\t@ sed -n \x27s/^##//p\x27 $\x7bMAKEFILE_LIST\x7d | column -t -s \x27:\x27 |  sed -e \x27s/^/ /\x27\n\n.PHONY: test\n## test: run unit tests\ntest:\n\t@ go test -v ./... -count=1\n\n.PHONY: coverage\n## coverage: run unit tests and generate coverage report in html format\ncoverage:\n\t@ go test -coverprofile=coverage.out ./...  && go tool cover -html=coverage.out\n"

/-- The Go constant addTargetTemplate (template used when neither content
nor dependencies are given). -/
def addTargetTemplate : String :=
  "\n.PHONY: \x7b\x7b .TargetName \x7d\x7d\n## \x7b\x7b .TargetName \x7d\x7d: explain what \x7b\x7b .TargetName \x7d\x7d does\n\x7b\x7b .TargetName \x7d\x7d:\n"

/-- The Go constant addTargetWithDependenciesTemplate. -/
def addTargetWithDependenciesTemplate : String :=
  "\n.PHONY: \x7b\x7b .TargetName \x7d\x7d\n## \x7b\x7b .TargetName \x7d\x7d: explain what \x7b\x7b .TargetName \x7d\x7d does\n\x7b\x7b .TargetName \x7d\x7d: \x7b\x7b .TargetDependencies \x7d\x7d\n"

/-- The Go constant addTargetWithContentAndDependenciesTemplate. -/
def addTargetWithContentAndDependenciesTemplate : String :=
  "\n.PHONY: \x7b\x7b .TargetName \x7d\x7d\n## \x7b\x7b .TargetName \x7d\x7d: explain what \x7b\x7b .TargetName \x7d\x7d does\n\x7b\x7b .TargetName \x7d\x7d: \x7b\x7b .TargetDependencies \x7d\x7d\n\t\x7b\x7b .TargetContent \x7d\x7d\n"

/-- The Go constant addTargetWithContentTemplate. -/
def addTargetWithContentTemplate : String :=
  "\n.PHONY: \x7b\x7b .TargetName \x7d\x7d\n## \x7b\x7b .TargetName \x7d\x7d: explain what \x7b\x7b .TargetName \x7d\x7d does\n\x7b\x7b .TargetName \x7d\x7d:\n\t\x7b\x7b .TargetContent \x7d\x7d\n"

/-- The Go constant makefileName. -/
def makefileName : String := "Makefile"

/-- A parsed template is a sequence of literal pieces and field actions;
this is the shape html/template produces for the mfile template
constants, whose only actions are field references. -/
inductive TmplNode where
  | lit (s : String)
  | field (name : String)
deriving Repr, DecidableEq

/-- The opening brace character (U+007B). -/
def lbrace : Char := Char.ofNat 123

/-- The closing brace character (U+007D). -/
def rbrace : Char := Char.ofNat 125

/-- Helper flushing an accumulated (reversed) literal onto a node list. -/
def flushLit (acc : List Char) (rest : List TmplNode) : List TmplNode :=
  if acc.isEmpty then rest else TmplNode.lit (String.mk acc.reverse) :: rest

/-- Scanner for the template action syntax actually occurring in the
mfile template constants: an action is exactly an opening double brace,
a space, a dot, a field name, a space, and a closing double brace.
The fuel argument (initially the input length) makes the recursion
structural; every step consumes at least one input character, so the
fuel never runs out on the initial call. -/
def parseTmplAux : Nat → List Char → List Char → List TmplNode
  | 0, acc, rest => flushLit acc (if rest.isEmpty then [] else [TmplNode.lit (String.mk rest)])
  | _ + 1, acc, [] => flushLit acc []
  | fuel + 1, acc, c :: rest =>
    if (c :: rest).take 4 = [lbrace, lbrace, ' ', '.'] then
      let afterOpen := (c :: rest).drop 4
      let fname := afterOpen.takeWhile (fun ch => ch ≠ ' ')
      let afterName := afterOpen.dropWhile (fun ch => ch ≠ ' ')
      if afterName.take 3 = [' ', rbrace, rbrace] then
        flushLit acc (TmplNode.field (String.mk fname) :: parseTmplAux fuel [] (afterName.drop 3))
      else
        parseTmplAux fuel (c :: acc) rest
    else
      parseTmplAux fuel (c :: acc) rest

/-- Model of html/template parsing of the fixed mfile template texts. -/
def parseTmpl (s : String) : List TmplNode := parseTmplAux s.data.length [] s.data

/-- Field lookup in the data map passed to template execution. Every
execution in mfile supplies all fields its template mentions, so the
default for a missing key is never reached. -/
def lookupField (data : List (String × String)) (f : String) : String :=
  match data with
  | [] => ""
  | (k, v) :: rest => if k = f then v else lookupField rest f

/-- Model of executing a parsed template: literals are emitted unchanged
and each field action emits the HTML-escaped field value (html/template
auto-escaping in text context). -/
def renderNodes (data : List (String × String)) : List TmplNode → String
  | [] => ""
  | TmplNode.lit s :: rest => s ++ renderNodes data rest
  | TmplNode.field f :: rest => htmlEscape (lookupField data f) ++ renderNodes data rest

/-- Model of templateProcessorProvider.Parse followed by Execute on the
given data, for the fixed mfile template texts (on which Parse and the
escape analysis never fail). -/
def renderTemplate (tmplText : String) (data : List (String × String)) : String :=
  renderNodes data (parseTmpl tmplText)

/-- Splitting a string at every slash, as Go path cleaning separates a
path into its components (strings.Split on the path separator). -/
def splitSlashAux : List Char → List Char → List String
  | [], acc => [String.mk acc.reverse]
  | c :: rest, acc =>
    if c = '/' then String.mk acc.reverse :: splitSlashAux rest []
    else splitSlashAux rest (c :: acc)

/-- Component split of a path on the Unix separator. -/
def splitSlash (s : String) : List String := splitSlashAux s.data []

/-- True iff the path starts with the Unix path separator. -/
def isRooted (p : String) : Bool := p.data.head? = some '/'

/-- The stack pass of Go filepath.Clean (Unix rules): a dot-dot element
pops the previous real element, is dropped at the root, and is kept when
nothing is left to pop in a relative path; other elements are pushed.
The first list is the output stack (reversed), the second the remaining
components. -/
def goCleanElems (rooted : Bool) : List String → List String → List String
  | out, [] => out.reverse
  | out, c :: rest =>
    if c = ".." then
      match out with
      | [] =>
        if rooted then goCleanElems rooted [] rest
        else goCleanElems rooted [".."] rest
      | top :: out2 =>
        if top = ".." then goCleanElems rooted (c :: top :: out2) rest
        else goCleanElems rooted out2 rest
    else goCleanElems rooted (c :: out) rest

/-- Model of Go filepath.Clean on Unix: the empty path becomes a dot,
redundant separators and single-dot elements are dropped, dot-dot
elements are resolved against preceding elements (and dropped at the
root), and an empty result becomes a dot (or the root for rooted
paths). -/
def goClean (p : String) : String :=
  if p = "" then "."
  else
    let rooted := isRooted p
    let comps := (splitSlash p).filter (fun c => c ≠ "" && c ≠ ".")
    let body := String.intercalate "/" (goCleanElems rooted [] comps)
    if rooted then (if body = "" then "/" else "/" ++ body)
    else (if body = "" then "." else body)

/-- Model of Go filepath.Join on two elements (Unix): empty elements are
skipped and the slash-joined result is cleaned. -/
def goJoin (a b : String) : String :=
  if a = "" && b = "" then ""
  else if a = "" then goClean b
  else if b = "" then goClean a
  else goClean (a ++ "/" ++ b)

/-- Result of an os.Stat call that succeeded: the one attribute the
mfile code consults (fileInfo.IsDir via osFileSystem.IsDir). -/
structure FInfo where
  isDir : Bool
deriving Repr, DecidableEq

/-- The failure conditions of the modelled file-system operations:
a not-found failure (the one os.IsNotExist recognises), a permission
style failure, and the failure of using a directory as a file. -/
inductive FsErr where
  | notExist
  | permission
  | isDirectory
deriving Repr, DecidableEq

/-- Model of os.IsNotExist on the modelled failures. -/
def fsIsNotExist : FsErr → Bool
  | FsErr.notExist => true
  | _ => false

/-- Errors produced by the mfile functions: errors.New for the two
validation messages and errors.Wrap / errors.Wrapf around a
file-system failure. -/
inductive MError where
  | newError (msg : String)
  | wrap (msg : String) (cause : FsErr)
deriving Repr, DecidableEq

/-- Association-list lookup of a file's content by exact path. -/
def lookupFile : List (String × String) → String → Option String
  | [], _ => none
  | (q, c) :: rest, p => if q = p then some c else lookupFile rest p

/-- Membership test for path lists. -/
def containsStr : List String → String → Bool
  | [], _ => false
  | q :: rest, p => if q = p then true else containsStr rest p

/-- Create-or-truncate update of the file table at a path. -/
def setFile : List (String × String) → String → String → List (String × String)
  | [], p, d => [(p, d)]
  | (q, c) :: rest, p, d => if q = p then (p, d) :: rest else (q, c) :: setFile rest p d

/-- Append to the content of an existing file; paths not present are
left untouched. -/
def appendToFiles : List (String × String) → String → String → List (String × String)
  | [], _, _ => []
  | (q, c) :: rest, p, d =>
    if q = p then (q, c ++ d) :: rest else (q, c) :: appendToFiles rest p d

/-- The file-system state the osFileSystem operations of mfile/fs.go
act on: regular files with their content, directories, and paths on
which every operation fails with a non-not-found error (inaccessible
paths, modelling permission failures). -/
structure FS where
  files : List (String × String)
  dirs : List String
  broken : List String
deriving Repr

/-- Model of osFileSystem.Stat: fails on inaccessible paths, reports a
directory or a regular file, and fails with the not-found error
otherwise. -/
def FS.stat (fs : FS) (p : String) : Except FsErr FInfo :=
  if containsStr fs.broken p then Except.error FsErr.permission
  else if containsStr fs.dirs p then Except.ok ⟨true⟩
  else if (lookupFile fs.files p).isSome then Except.ok ⟨false⟩
  else Except.error FsErr.notExist

/-- Model of osFileSystem.ReadFile (os.ReadFile). -/
def FS.readFile (fs : FS) (p : String) : Except FsErr String :=
  if containsStr fs.broken p then Except.error FsErr.permission
  else
    match lookupFile fs.files p with
    | some c => Except.ok c
    | none =>
      if containsStr fs.dirs p then Except.error FsErr.isDirectory
      else Except.error FsErr.notExist

/-- Model of osFileSystem.WriteFile (os.WriteFile, create-or-truncate). -/
def FS.writeFile (fs : FS) (p : String) (data : String) : Except FsErr FS :=
  if containsStr fs.broken p then Except.error FsErr.permission
  else if containsStr fs.dirs p then Except.error FsErr.isDirectory
  else Except.ok { fs with files := setFile fs.files p data }

/-- Model of osFileSystem.OpenFile with flags O_APPEND plus O_WRONLY:
without O_CREATE the open fails with the not-found error when the path
does not denote an existing regular file, and never creates anything. -/
def FS.openAppend (fs : FS) (p : String) : Except FsErr Unit :=
  if containsStr fs.broken p then Except.error FsErr.permission
  else if containsStr fs.dirs p then Except.error FsErr.isDirectory
  else if (lookupFile fs.files p).isSome then Except.ok ()
  else Except.error FsErr.notExist

/-- Writing through a handle opened in append mode: the bytes land at
the current end of the file. -/
def FS.appendFile (fs : FS) (p : String) (d : String) : FS :=
  { fs with files := appendToFiles fs.files p d }

/-- The file-system calls an mfile operation can perform, recorded in
order as a trace so that claims about validation happening before any
I/O are statable. -/
inductive FsOp where
  | statOp (path : String)
  | readOp (path : String)
  | writeOp (path : String)
  | openOp (path : String)
  | appendOp (path : String)
deriving Repr, DecidableEq

/-- Model of mfile.mkFilePath: clean the path, and if a status lookup
on the cleaned path succeeds and reports a directory, join it with the
fixed Makefile name; in every other case keep the cleaned path. The Go
function returns only a string, so resolution itself never fails. -/
def mkFilePath (fs : FS) (path : String) : String :=
  let cleaned := goClean path
  match fs.stat cleaned with
  | Except.ok fi => if fi.isDir then goJoin cleaned makefileName else cleaned
  | Except.error _ => cleaned

/-- Model of mfile.GenerateMakefile, including the trace of file-system
calls: one stat (inside mkFilePath), a read when overwrite is false,
and the final write. -/
def GenerateMakefile (fs : FS) (path : String) (overwrite : Bool) :
    List FsOp × Except MError FS :=
  let makeFilePath := mkFilePath fs path
  let statTrace := [FsOp.statOp (goClean path)]
  if overwrite then
    match fs.writeFile makeFilePath generateTemplate with
    | Except.error e =>
      (statTrace ++ [FsOp.writeOp makeFilePath],
       Except.error (MError.wrap ("writing MakeFile at " ++ makeFilePath) e))
    | Except.ok fs2 => (statTrace ++ [FsOp.writeOp makeFilePath], Except.ok fs2)
  else
    match fs.readFile makeFilePath with
    | Except.error e =>
      if fsIsNotExist e then
        match fs.writeFile makeFilePath generateTemplate with
        | Except.error e2 =>
          (statTrace ++ [FsOp.readOp makeFilePath, FsOp.writeOp makeFilePath],
           Except.error (MError.wrap ("writing MakeFile at " ++ makeFilePath) e2))
        | Except.ok fs2 =>
          (statTrace ++ [FsOp.readOp makeFilePath, FsOp.writeOp makeFilePath], Except.ok fs2)
      else
        (statTrace ++ [FsOp.readOp makeFilePath],
         Except.error (MError.wrap ("reading Makefile at " ++ makeFilePath) e))
    | Except.ok existingContent =>
      match fs.writeFile makeFilePath (generateTemplate ++ existingContent) with
      | Except.error e2 =>
        (statTrace ++ [FsOp.readOp makeFilePath, FsOp.writeOp makeFilePath],
         Except.error (MError.wrap ("writing MakeFile at " ++ makeFilePath) e2))
      | Except.ok fs2 =>
        (statTrace ++ [FsOp.readOp makeFilePath, FsOp.writeOp makeFilePath], Except.ok fs2)

/-- The tail every AddTarget variant shares after its validation: resolve
the path (one stat), open the resolved file for append (the file must
already exist), parse the fixed template (which never fails on the mfile
constants) and execute it into the open file (an append of the rendered
text). -/
def addTargetCore (fs : FS) (path tmplText : String) (data : List (String × String)) :
    List FsOp × Except MError FS :=
  let mfp := mkFilePath fs path
  match fs.openAppend mfp with
  | Except.error e =>
    ([FsOp.statOp (goClean path), FsOp.openOp mfp],
     Except.error (MError.wrap ("opening " ++ path) e))
  | Except.ok _ =>
    ([FsOp.statOp (goClean path), FsOp.openOp mfp, FsOp.appendOp mfp],
     Except.ok (fs.appendFile mfp (renderTemplate tmplText data)))

/-- Model of mfile.AddTargetToMakefile. -/
def AddTargetToMakefile (fs : FS) (path targetName : String) :
    List FsOp × Except MError FS :=
  if containsSpace targetName then
    ([], Except.error (MError.newError "target name cannot contain space"))
  else
    addTargetCore fs path addTargetTemplate [("TargetName", targetName)]

/-- Model of mfile.AddTargetWithContentToMakefile. -/
def AddTargetWithContentToMakefile (fs : FS) (path targetName targetContent : String) :
    List FsOp × Except MError FS :=
  if containsSpace targetName then
    ([], Except.error (MError.newError "target name cannot contain space"))
  else
    addTargetCore fs path addTargetWithContentTemplate
      [("TargetName", targetName), ("TargetContent", targetContent)]

/-- Model of mfile.AddTargetWithDependenciesToMakefile; the loop over
the dependencies returns on the first entry containing a space. -/
def AddTargetWithDependenciesToMakefile (fs : FS) (path targetName : String)
    (targetDependencies : List String) : List FsOp × Except MError FS :=
  if containsSpace targetName then
    ([], Except.error (MError.newError "target name cannot contain space"))
  else if targetDependencies.any containsSpace then
    ([], Except.error (MError.newError "target dependency name cannot contain space"))
  else
    addTargetCore fs path addTargetWithDependenciesTemplate
      [("TargetName", targetName),
       ("TargetDependencies", String.intercalate " " targetDependencies)]

/-- Model of mfile.AddTargetWithContentAndDependenciesToMakefile. -/
def AddTargetWithContentAndDependenciesToMakefile (fs : FS)
    (path targetName targetContent : String) (targetDependencies : List String) :
    List FsOp × Except MError FS :=
  if containsSpace targetName then
    ([], Except.error (MError.newError "target name cannot contain space"))
  else if targetDependencies.any containsSpace then
    ([], Except.error (MError.newError "target dependency name cannot contain space"))
  else
    addTargetCore fs path addTargetWithContentAndDependenciesTemplate
      [("TargetName", targetName),
       ("TargetDependencies", String.intercalate " " targetDependencies),
       ("TargetContent", targetContent)]

/-- Whether an operation's outcome is one of the validation failures
(errors.New), as opposed to success or a wrapped file-system failure. -/
def resultIsInvalidArgument (r : Except MError FS) : Bool :=
  match r with
  | Except.error (MError.newError _) => true
  | _ => false

/-- Rendered block of the plain variant: the template shape with every
substituted value HTML-escaped. -/
def addTargetRendered (n : String) : String :=
  "\n.PHONY: " ++ htmlEscape n ++ "\n## " ++ htmlEscape n ++ ": explain what " ++
    htmlEscape n ++ " does\n" ++ htmlEscape n ++ ":\n"

/-- Rendered block of the dependencies variant; d is the space-joined
dependency list. -/
def addTargetWithDepsRendered (n d : String) : String :=
  "\n.PHONY: " ++ htmlEscape n ++ "\n## " ++ htmlEscape n ++ ": explain what " ++
    htmlEscape n ++ " does\n" ++ htmlEscape n ++ ": " ++ htmlEscape d ++ "\n"

/-- Rendered block of the content variant. -/
def addTargetWithContentRendered (n c : String) : String :=
  "\n.PHONY: " ++ htmlEscape n ++ "\n## " ++ htmlEscape n ++ ": explain what " ++
    htmlEscape n ++ " does\n" ++ htmlEscape n ++ ":\n\t" ++ htmlEscape c ++ "\n"

/-- Rendered block of the content-and-dependencies variant. -/
def addTargetWithContentAndDepsRendered (n d c : String) : String :=
  "\n.PHONY: " ++ htmlEscape n ++ "\n## " ++ htmlEscape n ++ ": explain what " ++
    htmlEscape n ++ " does\n" ++ htmlEscape n ++ ": " ++ htmlEscape d ++ "\n\t" ++
    htmlEscape c ++ "\n"

set_option maxRecDepth 1000000

theorem strAppend_assoc (a b c : String) : a ++ b ++ c = a ++ (b ++ c) := by
  apply String.ext
  simp [String.data_append]

theorem strAppend_empty (a : String) : a ++ "" = a := by
  apply String.ext
  simp [String.data_append]

theorem parse_addTargetTemplate :
    parseTmpl addTargetTemplate =
    [TmplNode.lit "\n.PHONY: ", TmplNode.field "TargetName", TmplNode.lit "\n## ",
     TmplNode.field "TargetName", TmplNode.lit ": explain what ", TmplNode.field "TargetName",
     TmplNode.lit " does\n", TmplNode.field "TargetName", TmplNode.lit ":\n"] := by decide

theorem parse_addTargetWithDependenciesTemplate :
    parseTmpl addTargetWithDependenciesTemplate =
    [TmplNode.lit "\n.PHONY: ", TmplNode.field "TargetName", TmplNode.lit "\n## ",
     TmplNode.field "TargetName", TmplNode.lit ": explain what ", TmplNode.field "TargetName",
     TmplNode.lit " does\n", TmplNode.field "TargetName", TmplNode.lit ": ",
     TmplNode.field "TargetDependencies", TmplNode.lit "\n"] := by decide

theorem parse_addTargetWithContentAndDependenciesTemplate :
    parseTmpl addTargetWithContentAndDependenciesTemplate =
    [TmplNode.lit "\n.PHONY: ", TmplNode.field "TargetName", TmplNode.lit "\n## ",
     TmplNode.field "TargetName", TmplNode.lit ": explain what ", TmplNode.field "TargetName",
     TmplNode.lit " does\n", TmplNode.field "TargetName", TmplNode.lit ": ",
     TmplNode.field "TargetDependencies", TmplNode.lit "\n\t",
     TmplNode.field "TargetContent", TmplNode.lit "\n"] := by decide

theorem parse_addTargetWithContentTemplate :
    parseTmpl addTargetWithContentTemplate =
    [TmplNode.lit "\n.PHONY: ", TmplNode.field "TargetName", TmplNode.lit "\n## ",
     TmplNode.field "TargetName", TmplNode.lit ": explain what ", TmplNode.field "TargetName",
     TmplNode.lit " does\n", TmplNode.field "TargetName", TmplNode.lit ":\n\t",
     TmplNode.field "TargetContent", TmplNode.lit "\n"] := by decide

theorem renderTemplate_addTarget (n : String) :
    renderTemplate addTargetTemplate [("TargetName", n)] = addTargetRendered n := by
  rw [renderTemplate, parse_addTargetTemplate]
  simp [renderNodes, lookupField, addTargetRendered]
  apply String.ext
  simp [String.data_append]

theorem renderTemplate_addTargetWithDeps (n d : String) :
    renderTemplate addTargetWithDependenciesTemplate
      [("TargetName", n), ("TargetDependencies", d)] = addTargetWithDepsRendered n d := by
  rw [renderTemplate, parse_addTargetWithDependenciesTemplate]
  simp [renderNodes, lookupField, addTargetWithDepsRendered]
  apply String.ext
  simp [String.data_append]

theorem renderTemplate_addTargetWithContentAndDeps (n d c : String) :
    renderTemplate addTargetWithContentAndDependenciesTemplate
      [("TargetName", n), ("TargetDependencies", d), ("TargetContent", c)] =
      addTargetWithContentAndDepsRendered n d c := by
  rw [renderTemplate, parse_addTargetWithContentAndDependenciesTemplate]
  simp [renderNodes, lookupField, addTargetWithContentAndDepsRendered]
  apply String.ext
  simp [String.data_append]

theorem renderTemplate_addTargetWithContent (n c : String) :
    renderTemplate addTargetWithContentTemplate
      [("TargetName", n), ("TargetContent", c)] = addTargetWithContentRendered n c := by
  rw [renderTemplate, parse_addTargetWithContentTemplate]
  simp [renderNodes, lookupField, addTargetWithContentRendered]
  apply String.ext
  simp [String.data_append]

theorem lookupFile_setFile_self (l : List (String × String)) (p d : String) :
    lookupFile (setFile l p d) p = some d := by
  induction l with
  | nil => simp [setFile, lookupFile]
  | cons hd tl ih =>
    obtain ⟨q, c⟩ := hd
    by_cases h : q = p
    · simp [setFile, h, lookupFile]
    · simp [setFile, h, lookupFile, ih]

theorem lookupFile_setFile_ne (l : List (String × String)) (p d q : String) (h : q ≠ p) :
    lookupFile (setFile l p d) q = lookupFile l q := by
  induction l with
  | nil => simp [setFile, lookupFile, h.symm]
  | cons hd tl ih =>
    obtain ⟨r, c⟩ := hd
    by_cases hr : r = p
    · subst hr
      simp [setFile, lookupFile, h.symm]
    · simp [setFile, hr, lookupFile, ih]

theorem lookupFile_appendToFiles_self (l : List (String × String)) (p d x : String)
    (h : lookupFile l p = some x) :
    lookupFile (appendToFiles l p d) p = some (x ++ d) := by
  induction l with
  | nil => simp [lookupFile] at h
  | cons hd tl ih =>
    obtain ⟨q, c⟩ := hd
    by_cases hq : q = p
    · subst hq
      simp [lookupFile] at h
      simp [appendToFiles, lookupFile, h]
    · simp [lookupFile, hq] at h
      simp [appendToFiles, hq, lookupFile, ih h]

theorem lookupFile_appendToFiles_ne (l : List (String × String)) (p d q : String)
    (h : q ≠ p) :
    lookupFile (appendToFiles l p d) q = lookupFile l q := by
  induction l with
  | nil => simp [appendToFiles, lookupFile]
  | cons hd tl ih =>
    obtain ⟨r, c⟩ := hd
    by_cases hr : r = p
    · subst hr
      simp [appendToFiles, lookupFile, h.symm]
    · simp [appendToFiles, hr, lookupFile, ih]

theorem lookupFile_appendToFiles_isSome (l : List (String × String)) (p d q : String) :
    (lookupFile (appendToFiles l p d) q).isSome = (lookupFile l q).isSome := by
  induction l with
  | nil => simp [appendToFiles]
  | cons hd tl ih =>
    obtain ⟨r, c⟩ := hd
    by_cases hr : r = p
    · subst hr
      simp only [appendToFiles, if_pos rfl, lookupFile]
      by_cases hq : r = q <;> simp [hq]
    · simp only [appendToFiles, if_neg hr, lookupFile]
      by_cases hq : r = q <;> simp [hq, ih]

theorem stat_appendFile (fs : FS) (p d q : String) :
    (fs.appendFile p d).stat q = fs.stat q := by
  simp [FS.stat, FS.appendFile, lookupFile_appendToFiles_isSome]

theorem mkFilePath_appendFile (fs : FS) (p d path : String) :
    mkFilePath (fs.appendFile p d) path = mkFilePath fs path := by
  simp [mkFilePath, stat_appendFile]

theorem addTargetCore_missing (fs : FS) (path t : String) (data : List (String × String))
    (hmiss : lookupFile fs.files (mkFilePath fs path) = none)
    (hnd : containsStr fs.dirs (mkFilePath fs path) = false)
    (hnb : containsStr fs.broken (mkFilePath fs path) = false) :
    addTargetCore fs path t data =
      ([FsOp.statOp (goClean path), FsOp.openOp (mkFilePath fs path)],
       Except.error (MError.wrap ("opening " ++ path) FsErr.notExist)) := by
  simp [addTargetCore, FS.openAppend, hmiss, hnd, hnb]

theorem addTargetCore_ok (fs : FS) (path t : String) (data : List (String × String))
    (x : String)
    (hx : lookupFile fs.files (mkFilePath fs path) = some x)
    (hnd : containsStr fs.dirs (mkFilePath fs path) = false)
    (hnb : containsStr fs.broken (mkFilePath fs path) = false) :
    addTargetCore fs path t data =
      ([FsOp.statOp (goClean path), FsOp.openOp (mkFilePath fs path),
        FsOp.appendOp (mkFilePath fs path)],
       Except.ok (fs.appendFile (mkFilePath fs path) (renderTemplate t data))) := by
  simp [addTargetCore, FS.openAppend, hx, hnd, hnb]

/-- C1: with overwrite false, GenerateMakefile leaves the resolved
Makefile containing exactly the boilerplate template text immediately
followed by the prior content (no separator, no deduplication); when the
resolved file does not exist, the not-found read error is treated as
empty prior content and the call succeeds, writing exactly the
boilerplate. -/
theorem generateMakefile_prepends_boilerplate (fs : FS) (path c : String)
    (hnb : containsStr fs.broken (mkFilePath fs path) = false)
    (hnd : containsStr fs.dirs (mkFilePath fs path) = false) :
    (lookupFile fs.files (mkFilePath fs path) = some c →
      ∃ fs2, (GenerateMakefile fs path false).2 = Except.ok fs2 ∧
        lookupFile fs2.files (mkFilePath fs path) = some (generateTemplate ++ c))
  ∧ (lookupFile fs.files (mkFilePath fs path) = none →
      ∃ fs2, (GenerateMakefile fs path false).2 = Except.ok fs2 ∧
        lookupFile fs2.files (mkFilePath fs path) = some generateTemplate) := by
  constructor
  · intro hfile
    refine ⟨{ fs with
        files := setFile fs.files (mkFilePath fs path) (generateTemplate ++ c) }, ?_, ?_⟩
    · simp [GenerateMakefile, FS.readFile, FS.writeFile, hnb, hnd, hfile]
    · simp [lookupFile_setFile_self]
  · intro hfile
    refine ⟨{ fs with
        files := setFile fs.files (mkFilePath fs path) generateTemplate }, ?_, ?_⟩
    · simp [GenerateMakefile, FS.readFile, FS.writeFile, hnb, hnd, hfile, fsIsNotExist]
    · simp [lookupFile_setFile_self]

/-- Witness for C1: on a file system whose Makefile holds X, generating
without overwrite yields the boilerplate followed by X. -/
theorem generateMakefile_prepends_boilerplate_witness :
    ∃ fs2, (GenerateMakefile ⟨[("Makefile", "X")], [], []⟩ "Makefile" false).2 =
        Except.ok fs2 ∧
      lookupFile fs2.files (mkFilePath ⟨[("Makefile", "X")], [], []⟩ "Makefile") =
        some (generateTemplate ++ "X") :=
  (generateMakefile_prepends_boilerplate ⟨[("Makefile", "X")], [], []⟩ "Makefile" "X"
    (by decide) (by decide)).1 (by decide)

/-- C2: path resolution cleans the input path; when a status lookup on
the cleaned path succeeds and reports a directory the resolved path is
the cleaned path joined with the fixed name Makefile, and in every other
case (status failure, or not a directory) it is the cleaned path itself.
The modelled mkFilePath returns a plain string, so resolution itself
never produces an error. -/
theorem mkFilePath_resolution (fs : FS) (p : String) :
    (∀ fi, fs.stat (goClean p) = Except.ok fi → fi.isDir = true →
      mkFilePath fs p = goJoin (goClean p) "Makefile")
  ∧ (∀ fi, fs.stat (goClean p) = Except.ok fi → fi.isDir = false →
      mkFilePath fs p = goClean p)
  ∧ (∀ e, fs.stat (goClean p) = Except.error e → mkFilePath fs p = goClean p) := by
  refine ⟨?_, ?_, ?_⟩
  · intro fi h hdir
    simp [mkFilePath, h, hdir, makefileName]
  · intro fi h hdir
    simp [mkFilePath, h, hdir]
  · intro e h
    simp [mkFilePath, h]

/-- Witness for C2: resolving an existing directory appends the fixed
Makefile name. -/
theorem mkFilePath_resolution_witness :
    mkFilePath ⟨[], ["d"], []⟩ "d" = goJoin (goClean "d") "Makefile" :=
  (mkFilePath_resolution ⟨[], ["d"], []⟩ "d").1 ⟨true⟩ rfl rfl

/-- Counterexample for C3: the space-free target name a&b is not
substituted verbatim — the appended block HTML-escapes the ampersand,
so the file does not end with the claimed literal block. -/
theorem addTarget_verbatim_counterexample :
    ((AddTargetToMakefile ⟨[("Makefile", "X")], [], []⟩ "Makefile" "a&b").2.toOption.map
      (fun f => lookupFile f.files "Makefile") =
      some (some ("X" ++ "\n.PHONY: a&amp;b\n## a&amp;b: explain what a&amp;b does\na&amp;b:\n")))
  ∧ ((AddTargetToMakefile ⟨[("Makefile", "X")], [], []⟩ "Makefile" "a&b").2.toOption.map
      (fun f => lookupFile f.files "Makefile") ≠
      some (some ("X" ++ "\n.PHONY: a&b\n## a&b: explain what a&b does\na&b:\n"))) := by
  constructor
  · decide
  · decide

/-- C3 (amended): each variant appends to the existing content exactly
the template shape selected by which optional inputs are present, with
every substituted value (name, space-joined dependency list, content)
inserted after HTML escaping; values free of the escaped characters
appear verbatim. -/
theorem addTarget_template_shapes (fs : FS) (path name content x : String)
    (deps : List String)
    (hname : containsSpace name = false)
    (hdeps : deps.any containsSpace = false)
    (hx : lookupFile fs.files (mkFilePath fs path) = some x)
    (hnd : containsStr fs.dirs (mkFilePath fs path) = false)
    (hnb : containsStr fs.broken (mkFilePath fs path) = false) :
    (∃ fs2, (AddTargetToMakefile fs path name).2 = Except.ok fs2 ∧
      lookupFile fs2.files (mkFilePath fs path) = some (x ++ addTargetRendered name))
  ∧ (∃ fs2, (AddTargetWithDependenciesToMakefile fs path name deps).2 = Except.ok fs2 ∧
      lookupFile fs2.files (mkFilePath fs path) =
        some (x ++ addTargetWithDepsRendered name (String.intercalate " " deps)))
  ∧ (∃ fs2, (AddTargetWithContentToMakefile fs path name content).2 = Except.ok fs2 ∧
      lookupFile fs2.files (mkFilePath fs path) =
        some (x ++ addTargetWithContentRendered name content))
  ∧ (∃ fs2,
      (AddTargetWithContentAndDependenciesToMakefile fs path name content deps).2 =
        Except.ok fs2 ∧
      lookupFile fs2.files (mkFilePath fs path) =
        some (x ++ addTargetWithContentAndDepsRendered name
          (String.intercalate " " deps) content)) := by
  refine ⟨?_, ?_, ?_, ?_⟩
  · refine ⟨fs.appendFile (mkFilePath fs path)
        (renderTemplate addTargetTemplate [("TargetName", name)]), ?_, ?_⟩
    · simp [AddTargetToMakefile, hname,
        addTargetCore_ok fs path addTargetTemplate [("TargetName", name)] x hx hnd hnb]
    · simp [FS.appendFile, renderTemplate_addTarget]
      exact lookupFile_appendToFiles_self _ _ _ _ hx
  · refine ⟨fs.appendFile (mkFilePath fs path)
        (renderTemplate addTargetWithDependenciesTemplate
          [("TargetName", name), ("TargetDependencies", String.intercalate " " deps)]),
        ?_, ?_⟩
    · simp [AddTargetWithDependenciesToMakefile, hname, hdeps,
        addTargetCore_ok fs path addTargetWithDependenciesTemplate
          [("TargetName", name), ("TargetDependencies", String.intercalate " " deps)] x hx hnd hnb]
    · simp [FS.appendFile, renderTemplate_addTargetWithDeps]
      exact lookupFile_appendToFiles_self _ _ _ _ hx
  · refine ⟨fs.appendFile (mkFilePath fs path)
        (renderTemplate addTargetWithContentTemplate
          [("TargetName", name), ("TargetContent", content)]), ?_, ?_⟩
    · simp [AddTargetWithContentToMakefile, hname,
        addTargetCore_ok fs path addTargetWithContentTemplate
          [("TargetName", name), ("TargetContent", content)] x hx hnd hnb]
    · simp [FS.appendFile, renderTemplate_addTargetWithContent]
      exact lookupFile_appendToFiles_self _ _ _ _ hx
  · refine ⟨fs.appendFile (mkFilePath fs path)
        (renderTemplate addTargetWithContentAndDependenciesTemplate
          [("TargetName", name), ("TargetDependencies", String.intercalate " " deps),
           ("TargetContent", content)]), ?_, ?_⟩
    · simp [AddTargetWithContentAndDependenciesToMakefile, hname, hdeps,
        addTargetCore_ok fs path addTargetWithContentAndDependenciesTemplate
          [("TargetName", name), ("TargetDependencies", String.intercalate " " deps),
           ("TargetContent", content)] x hx hnd hnb]
    · simp [FS.appendFile, renderTemplate_addTargetWithContentAndDeps]
      exact lookupFile_appendToFiles_self _ _ _ _ hx

/-- Witness for the amended C3: target t with dependencies a and b and
content consisting of plain characters yields the claimed shapes. -/
theorem addTarget_template_shapes_witness :
    ∃ fs2, (AddTargetWithDependenciesToMakefile ⟨[("Makefile", "X")], [], []⟩ "Makefile"
        "t" ["a", "b"]).2 = Except.ok fs2 ∧
      lookupFile fs2.files (mkFilePath ⟨[("Makefile", "X")], [], []⟩ "Makefile") =
        some ("X" ++ addTargetWithDepsRendered "t" (String.intercalate " " ["a", "b"])) :=
  (addTarget_template_shapes ⟨[("Makefile", "X")], [], []⟩ "Makefile" "t" "@ run" "X"
    ["a", "b"] (by decide) (by decide) (by decide) (by decide) (by decide)).2.1

/-- C4: a target name containing a space makes every variant fail with
the error target name cannot contain space, and a dependency entry
containing a space makes the dependency-taking variants fail with the
error target dependency name cannot contain space; in both cases the
trace of file-system calls is empty, so validation happens before any
stat, open, read or write and the target file is untouched. -/
theorem addTarget_validation_before_io (fs : FS) (path name name2 content : String)
    (deps : List String)
    (hs : containsSpace name = true)
    (hn2 : containsSpace name2 = false)
    (hd : deps.any containsSpace = true) :
    AddTargetToMakefile fs path name =
      ([], Except.error (MError.newError "target name cannot contain space"))
  ∧ AddTargetWithContentToMakefile fs path name content =
      ([], Except.error (MError.newError "target name cannot contain space"))
  ∧ AddTargetWithDependenciesToMakefile fs path name deps =
      ([], Except.error (MError.newError "target name cannot contain space"))
  ∧ AddTargetWithContentAndDependenciesToMakefile fs path name content deps =
      ([], Except.error (MError.newError "target name cannot contain space"))
  ∧ AddTargetWithDependenciesToMakefile fs path name2 deps =
      ([], Except.error (MError.newError "target dependency name cannot contain space"))
  ∧ AddTargetWithContentAndDependenciesToMakefile fs path name2 content deps =
      ([], Except.error (MError.newError "target dependency name cannot contain space")) := by
  refine ⟨?_, ?_, ?_, ?_, ?_, ?_⟩ <;>
    simp [AddTargetToMakefile, AddTargetWithContentToMakefile,
      AddTargetWithDependenciesToMakefile, AddTargetWithContentAndDependenciesToMakefile,
      hs, hn2, hd]

/-- Witness for C4: the name a b and the dependency x y are rejected
with empty traces on a concrete file system. -/
theorem addTarget_validation_before_io_witness :
    AddTargetToMakefile ⟨[("Makefile", "X")], [], []⟩ "Makefile" "a b" =
      ([], Except.error (MError.newError "target name cannot contain space"))
  ∧ AddTargetWithContentToMakefile ⟨[("Makefile", "X")], [], []⟩ "Makefile" "a b" "c" =
      ([], Except.error (MError.newError "target name cannot contain space"))
  ∧ AddTargetWithDependenciesToMakefile ⟨[("Makefile", "X")], [], []⟩ "Makefile" "a b" ["x y"] =
      ([], Except.error (MError.newError "target name cannot contain space"))
  ∧ AddTargetWithContentAndDependenciesToMakefile ⟨[("Makefile", "X")], [], []⟩ "Makefile"
      "a b" "c" ["x y"] =
      ([], Except.error (MError.newError "target name cannot contain space"))
  ∧ AddTargetWithDependenciesToMakefile ⟨[("Makefile", "X")], [], []⟩ "Makefile" "ok" ["x y"] =
      ([], Except.error (MError.newError "target dependency name cannot contain space"))
  ∧ AddTargetWithContentAndDependenciesToMakefile ⟨[("Makefile", "X")], [], []⟩ "Makefile"
      "ok" "c" ["x y"] =
      ([], Except.error (MError.newError "target dependency name cannot contain space")) :=
  addTarget_validation_before_io ⟨[("Makefile", "X")], [], []⟩ "Makefile" "a b" "ok" "c"
    ["x y"] (by decide) (by decide) (by decide)

/-- C5 is contradicted by the code: rendering goes through html/template,
so a content value containing a double quote is appended HTML-escaped
rather than verbatim (the repository README documents the verbatim
output). This theorem evaluates the model at the failing input: content
at-echo-quote-ok-quote is written with its quotes replaced by the
entity for the double quote. -/
theorem addTargetWithContent_html_escapes :
    ((AddTargetWithContentToMakefile ⟨[("Makefile", "")], [], []⟩ "Makefile" "echo"
        "@ echo \"ok\"").2.toOption.map (fun f => lookupFile f.files "Makefile") =
      some (some "\n.PHONY: echo\n## echo: explain what echo does\necho:\n\t@ echo &#34;ok&#34;\n"))
  ∧ ("\n.PHONY: echo\n## echo: explain what echo does\necho:\n\t@ echo &#34;ok&#34;\n" ≠
      "\n.PHONY: echo\n## echo: explain what echo does\necho:\n\t@ echo \"ok\"\n") := by
  constructor
  · decide
  · decide

/-- C6: with overwrite true, GenerateMakefile writes exactly the fixed
boilerplate as the new full content of the resolved Makefile regardless
of prior content, leaves every other path untouched, and its trace
contains no read of the existing file. -/
theorem generateMakefile_overwrite_discards (fs : FS) (path q : String)
    (hnb : containsStr fs.broken (mkFilePath fs path) = false)
    (hnd : containsStr fs.dirs (mkFilePath fs path) = false)
    (hq : q ≠ mkFilePath fs path) :
    (∃ fs2, (GenerateMakefile fs path true).2 = Except.ok fs2 ∧
      lookupFile fs2.files (mkFilePath fs path) = some generateTemplate ∧
      lookupFile fs2.files q = lookupFile fs.files q)
  ∧ (GenerateMakefile fs path true).1 =
      [FsOp.statOp (goClean path), FsOp.writeOp (mkFilePath fs path)] := by
  constructor
  · refine ⟨{ fs with
        files := setFile fs.files (mkFilePath fs path) generateTemplate }, ?_, ?_, ?_⟩
    · simp [GenerateMakefile, FS.writeFile, hnb, hnd]
    · simp [lookupFile_setFile_self]
    · simp [lookupFile_setFile_ne _ _ _ _ hq]
  · simp [GenerateMakefile, FS.writeFile, hnb, hnd]

/-- Witness for C6: overwriting a Makefile holding old content yields
exactly the boilerplate, and the other file is untouched. -/
theorem generateMakefile_overwrite_discards_witness :
    (∃ fs2, (GenerateMakefile ⟨[("Makefile", "old"), ("other", "o")], [], []⟩
        "Makefile" true).2 = Except.ok fs2 ∧
      lookupFile fs2.files
        (mkFilePath ⟨[("Makefile", "old"), ("other", "o")], [], []⟩ "Makefile") =
        some generateTemplate ∧
      lookupFile fs2.files "other" =
        lookupFile (⟨[("Makefile", "old"), ("other", "o")], [], []⟩ : FS).files "other")
  ∧ (GenerateMakefile ⟨[("Makefile", "old"), ("other", "o")], [], []⟩ "Makefile" true).1 =
      [FsOp.statOp (goClean "Makefile"),
       FsOp.writeOp (mkFilePath ⟨[("Makefile", "old"), ("other", "o")], [], []⟩ "Makefile")] :=
  generateMakefile_overwrite_discards ⟨[("Makefile", "old"), ("other", "o")], [], []⟩
    "Makefile" "other" (by decide) (by decide) (by decide)

/-- Validation aside, no AddTarget variant can produce an errors.New
failure: after the open step the outcome is either a wrapped open error
or success. -/
theorem addTargetCore_not_invalid (fs : FS) (path t : String)
    (data : List (String × String)) :
    resultIsInvalidArgument (addTargetCore fs path t data).2 = false := by
  cases hop : fs.openAppend (mkFilePath fs path) with
  | error e => simp [addTargetCore, hop, resultIsInvalidArgument]
  | ok u => simp [addTargetCore, hop, resultIsInvalidArgument]

/-- C7: when the resolved path does not denote an existing file, every
AddTarget variant fails with the wrapped open error naming the supplied
path and the underlying not-found failure; the trace holds only the
resolution stat and the failed open — no write, append or create — so
the file system is left unchanged. -/
theorem addTarget_missing_file_fails (fs : FS) (path name content : String)
    (deps : List String)
    (hname : containsSpace name = false)
    (hdeps : deps.any containsSpace = false)
    (hmiss : lookupFile fs.files (mkFilePath fs path) = none)
    (hnd : containsStr fs.dirs (mkFilePath fs path) = false)
    (hnb : containsStr fs.broken (mkFilePath fs path) = false) :
    AddTargetToMakefile fs path name =
      ([FsOp.statOp (goClean path), FsOp.openOp (mkFilePath fs path)],
       Except.error (MError.wrap ("opening " ++ path) FsErr.notExist))
  ∧ AddTargetWithContentToMakefile fs path name content =
      ([FsOp.statOp (goClean path), FsOp.openOp (mkFilePath fs path)],
       Except.error (MError.wrap ("opening " ++ path) FsErr.notExist))
  ∧ AddTargetWithDependenciesToMakefile fs path name deps =
      ([FsOp.statOp (goClean path), FsOp.openOp (mkFilePath fs path)],
       Except.error (MError.wrap ("opening " ++ path) FsErr.notExist))
  ∧ AddTargetWithContentAndDependenciesToMakefile fs path name content deps =
      ([FsOp.statOp (goClean path), FsOp.openOp (mkFilePath fs path)],
       Except.error (MError.wrap ("opening " ++ path) FsErr.notExist)) := by
  refine ⟨?_, ?_, ?_, ?_⟩
  · simp [AddTargetToMakefile, hname,
      addTargetCore_missing fs path addTargetTemplate [("TargetName", name)] hmiss hnd hnb]
  · simp [AddTargetWithContentToMakefile, hname,
      addTargetCore_missing fs path addTargetWithContentTemplate
        [("TargetName", name), ("TargetContent", content)] hmiss hnd hnb]
  · simp [AddTargetWithDependenciesToMakefile, hname, hdeps,
      addTargetCore_missing fs path addTargetWithDependenciesTemplate
        [("TargetName", name), ("TargetDependencies", String.intercalate " " deps)]
        hmiss hnd hnb]
  · simp [AddTargetWithContentAndDependenciesToMakefile, hname, hdeps,
      addTargetCore_missing fs path addTargetWithContentAndDependenciesTemplate
        [("TargetName", name), ("TargetDependencies", String.intercalate " " deps),
         ("TargetContent", content)] hmiss hnd hnb]

/-- Witness for C7: adding a target against a path with no file fails
with the wrapped not-found open error and performs no mutation. -/
theorem addTarget_missing_file_fails_witness :
    AddTargetToMakefile ⟨[], [], []⟩ "nope" "t" =
      ([FsOp.statOp (goClean "nope"), FsOp.openOp (mkFilePath ⟨[], [], []⟩ "nope")],
       Except.error (MError.wrap ("opening " ++ "nope") FsErr.notExist)) :=
  (addTarget_missing_file_fails ⟨[], [], []⟩ "nope" "t" "c" ["a"]
    (by decide) (by decide) (by decide) (by decide) (by decide)).1

/-- C8: a successful AddTarget call appends exactly one rendered block
at the end of the resolved file, leaves every other path and all prior
content unchanged, and a second call with the same name appends the
same block again, yielding two stanzas for that name. -/
theorem addTarget_append_no_dedup (fs : FS) (path name x q : String)
    (hname : containsSpace name = false)
    (hx : lookupFile fs.files (mkFilePath fs path) = some x)
    (hnd : containsStr fs.dirs (mkFilePath fs path) = false)
    (hnb : containsStr fs.broken (mkFilePath fs path) = false)
    (hq : q ≠ mkFilePath fs path) :
    ∃ fs2, (AddTargetToMakefile fs path name).2 = Except.ok fs2 ∧
      lookupFile fs2.files (mkFilePath fs path) = some (x ++ addTargetRendered name) ∧
      lookupFile fs2.files q = lookupFile fs.files q ∧
      fs2.dirs = fs.dirs ∧ fs2.broken = fs.broken ∧
      ∃ fs3, (AddTargetToMakefile fs2 path name).2 = Except.ok fs3 ∧
        lookupFile fs3.files (mkFilePath fs path) =
          some (x ++ addTargetRendered name ++ addTargetRendered name) := by
  have hmfp2 : mkFilePath (fs.appendFile (mkFilePath fs path) (addTargetRendered name)) path =
      mkFilePath fs path := mkFilePath_appendFile fs (mkFilePath fs path) _ path
  have hx2 : lookupFile (fs.appendFile (mkFilePath fs path) (addTargetRendered name)).files
      (mkFilePath fs path) = some (x ++ addTargetRendered name) := by
    simp [FS.appendFile]
    exact lookupFile_appendToFiles_self _ _ _ _ hx
  refine ⟨fs.appendFile (mkFilePath fs path) (addTargetRendered name), ?_, hx2, ?_, rfl, rfl, ?_⟩
  · simp [AddTargetToMakefile, hname,
      addTargetCore_ok fs path addTargetTemplate [("TargetName", name)] x hx hnd hnb,
      renderTemplate_addTarget]
  · simp [FS.appendFile]
    exact lookupFile_appendToFiles_ne _ _ _ _ hq
  · have hcore := addTargetCore_ok (fs.appendFile (mkFilePath fs path) (addTargetRendered name))
      path addTargetTemplate [("TargetName", name)] (x ++ addTargetRendered name)
      (by rw [hmfp2]; exact hx2) (by rw [hmfp2]; exact hnd) (by rw [hmfp2]; exact hnb)
    refine ⟨(fs.appendFile (mkFilePath fs path) (addTargetRendered name)).appendFile
        (mkFilePath (fs.appendFile (mkFilePath fs path) (addTargetRendered name)) path)
        (addTargetRendered name), ?_, ?_⟩
    · simp [AddTargetToMakefile, hname, hcore, renderTemplate_addTarget]
    · rw [hmfp2]
      simp [FS.appendFile]
      exact lookupFile_appendToFiles_self _ _ _ _ hx2

/-- Witness for C8: adding target t twice to a Makefile holding X
yields X followed by two copies of the rendered block. -/
theorem addTarget_append_no_dedup_witness :
    ∃ fs2, (AddTargetToMakefile ⟨[("Makefile", "X"), ("other", "o")], [], []⟩
        "Makefile" "t").2 = Except.ok fs2 ∧
      lookupFile fs2.files (mkFilePath ⟨[("Makefile", "X"), ("other", "o")], [], []⟩ "Makefile") =
        some ("X" ++ addTargetRendered "t") ∧
      lookupFile fs2.files "other" =
        lookupFile (⟨[("Makefile", "X"), ("other", "o")], [], []⟩ : FS).files "other" ∧
      fs2.dirs = (⟨[("Makefile", "X"), ("other", "o")], [], []⟩ : FS).dirs ∧
      fs2.broken = (⟨[("Makefile", "X"), ("other", "o")], [], []⟩ : FS).broken ∧
      ∃ fs3, (AddTargetToMakefile fs2 "Makefile" "t").2 = Except.ok fs3 ∧
        lookupFile fs3.files
          (mkFilePath ⟨[("Makefile", "X"), ("other", "o")], [], []⟩ "Makefile") =
          some ("X" ++ addTargetRendered "t" ++ addTargetRendered "t") :=
  addTarget_append_no_dedup ⟨[("Makefile", "X"), ("other", "o")], [], []⟩ "Makefile" "t" "X"
    "other" (by decide) (by decide) (by decide) (by decide) (by decide)

/-- Counterexample for C9: a target name containing a tab — a whitespace
character other than the space — is not rejected: the call succeeds. -/
theorem whitespace_name_accepted :
    ("a\tb".data.any Char.isWhitespace = true)
  ∧ ((AddTargetToMakefile ⟨[("Makefile", "")], [], []⟩ "Makefile" "a\tb").2.toOption.isSome
      = true) := by
  constructor
  · decide
  · decide

/-- C9 (amended): a target name or dependency entry containing the ASCII
space character U+0020 makes the operation fail with the InvalidArgument
error before any file-system call (empty trace); whitespace characters
other than the space do not trigger this validation — a name or
dependency free of spaces never produces the InvalidArgument outcome,
whatever other whitespace it contains. -/
theorem addTarget_space_only_validation (fs : FS) (path nameS nameT content : String)
    (depsS depsT : List String)
    (hS : containsSpace nameS = true)
    (hT : containsSpace nameT = false)
    (hdS : depsS.any containsSpace = true)
    (hdT : depsT.any containsSpace = false) :
    AddTargetToMakefile fs path nameS =
      ([], Except.error (MError.newError "target name cannot contain space"))
  ∧ AddTargetWithContentAndDependenciesToMakefile fs path nameT content depsS =
      ([], Except.error (MError.newError "target dependency name cannot contain space"))
  ∧ resultIsInvalidArgument (AddTargetToMakefile fs path nameT).2 = false
  ∧ resultIsInvalidArgument
      (AddTargetWithContentAndDependenciesToMakefile fs path nameT content depsT).2 = false := by
  refine ⟨?_, ?_, ?_, ?_⟩
  · simp [AddTargetToMakefile, hS]
  · simp [AddTargetWithContentAndDependenciesToMakefile, hT, hdS]
  · simp [AddTargetToMakefile, hT, addTargetCore_not_invalid]
  · simp [AddTargetWithContentAndDependenciesToMakefile, hT, hdT, addTargetCore_not_invalid]

/-- Witness for the amended C9: a spaced name and a spaced dependency
are rejected with empty traces, while a tab inside the name and a
newline inside a dependency pass validation. -/
theorem addTarget_space_only_validation_witness :
    AddTargetToMakefile ⟨[("Makefile", "")], [], []⟩ "Makefile" "a b" =
      ([], Except.error (MError.newError "target name cannot contain space"))
  ∧ AddTargetWithContentAndDependenciesToMakefile ⟨[("Makefile", "")], [], []⟩ "Makefile"
      "a\tb" "c" ["x y"] =
      ([], Except.error (MError.newError "target dependency name cannot contain space"))
  ∧ resultIsInvalidArgument
      (AddTargetToMakefile ⟨[("Makefile", "")], [], []⟩ "Makefile" "a\tb").2 = false
  ∧ resultIsInvalidArgument
      (AddTargetWithContentAndDependenciesToMakefile ⟨[("Makefile", "")], [], []⟩ "Makefile"
        "a\tb" "c" ["c\nd"]).2 = false :=
  addTarget_space_only_validation ⟨[("Makefile", "")], [], []⟩ "Makefile" "a b" "a\tb" "c"
    ["x y"] ["c\nd"] (by decide) (by decide) (by decide) (by decide)

/-- C10: every AddTarget variant produces the InvalidArgument outcome
exactly when the target name (or, for the dependency-taking variants,
some dependency entry) contains the ASCII space character; in
particular the empty target name is accepted and the call appends a
block whose name fields are empty. -/
theorem addTarget_validation_iff_space (fs : FS) (path name content x : String)
    (deps : List String)
    (hx : lookupFile fs.files (mkFilePath fs path) = some x)
    (hnd : containsStr fs.dirs (mkFilePath fs path) = false)
    (hnb : containsStr fs.broken (mkFilePath fs path) = false) :
    resultIsInvalidArgument (AddTargetToMakefile fs path name).2 = containsSpace name
  ∧ resultIsInvalidArgument (AddTargetWithContentToMakefile fs path name content).2 =
      containsSpace name
  ∧ resultIsInvalidArgument (AddTargetWithDependenciesToMakefile fs path name deps).2 =
      (containsSpace name || deps.any containsSpace)
  ∧ resultIsInvalidArgument
      (AddTargetWithContentAndDependenciesToMakefile fs path name content deps).2 =
      (containsSpace name || deps.any containsSpace)
  ∧ ∃ fs2, (AddTargetToMakefile fs path "").2 = Except.ok fs2 ∧
      lookupFile fs2.files (mkFilePath fs path) =
        some (x ++ "\n.PHONY: \n## : explain what  does\n:\n") := by
  have hempty : containsSpace "" = false := by decide
  have hre : addTargetRendered "" = "\n.PHONY: \n## : explain what  does\n:\n" := by decide
  refine ⟨?_, ?_, ?_, ?_, ?_⟩
  · by_cases h : containsSpace name = true
    · simp [AddTargetToMakefile, h, resultIsInvalidArgument]
    · simp at h
      simp [AddTargetToMakefile, h, addTargetCore_not_invalid]
  · by_cases h : containsSpace name = true
    · simp [AddTargetWithContentToMakefile, h, resultIsInvalidArgument]
    · simp at h
      simp [AddTargetWithContentToMakefile, h, addTargetCore_not_invalid]
  · by_cases h : containsSpace name = true
    · simp [AddTargetWithDependenciesToMakefile, h, resultIsInvalidArgument]
    · simp at h
      by_cases h2 : deps.any containsSpace = true
      · simp [AddTargetWithDependenciesToMakefile, h, h2, resultIsInvalidArgument]
      · rw [Bool.not_eq_true] at h2
        simp [AddTargetWithDependenciesToMakefile, h, h2, addTargetCore_not_invalid]
  · by_cases h : containsSpace name = true
    · simp [AddTargetWithContentAndDependenciesToMakefile, h, resultIsInvalidArgument]
    · simp at h
      by_cases h2 : deps.any containsSpace = true
      · simp [AddTargetWithContentAndDependenciesToMakefile, h, h2, resultIsInvalidArgument]
      · rw [Bool.not_eq_true] at h2
        simp [AddTargetWithContentAndDependenciesToMakefile, h, h2, addTargetCore_not_invalid]
  · refine ⟨fs.appendFile (mkFilePath fs path) (addTargetRendered ""), ?_, ?_⟩
    · simp [AddTargetToMakefile, hempty,
        addTargetCore_ok fs path addTargetTemplate [("TargetName", "")] x hx hnd hnb,
        renderTemplate_addTarget]
    · rw [← hre]
      simp [FS.appendFile]
      exact lookupFile_appendToFiles_self _ _ _ _ hx

/-- Witness for C10: a spaced name yields the InvalidArgument outcome, a
clean name does not, and the empty name appends the empty-name block. -/
theorem addTarget_validation_iff_space_witness :
    resultIsInvalidArgument
      (AddTargetToMakefile ⟨[("Makefile", "X")], [], []⟩ "Makefile" "a b").2 =
      containsSpace "a b"
  ∧ resultIsInvalidArgument
      (AddTargetWithContentToMakefile ⟨[("Makefile", "X")], [], []⟩ "Makefile" "a b" "y").2 =
      containsSpace "a b"
  ∧ resultIsInvalidArgument
      (AddTargetWithDependenciesToMakefile ⟨[("Makefile", "X")], [], []⟩ "Makefile" "a b"
        ["c"]).2 = (containsSpace "a b" || ["c"].any containsSpace)
  ∧ resultIsInvalidArgument
      (AddTargetWithContentAndDependenciesToMakefile ⟨[("Makefile", "X")], [], []⟩ "Makefile"
        "a b" "y" ["c"]).2 = (containsSpace "a b" || ["c"].any containsSpace)
  ∧ ∃ fs2, (AddTargetToMakefile ⟨[("Makefile", "X")], [], []⟩ "Makefile" "").2 =
        Except.ok fs2 ∧
      lookupFile fs2.files (mkFilePath ⟨[("Makefile", "X")], [], []⟩ "Makefile") =
        some ("X" ++ "\n.PHONY: \n## : explain what  does\n:\n") :=
  addTarget_validation_iff_space ⟨[("Makefile", "X")], [], []⟩ "Makefile" "a b" "y" "X"
    ["c"] (by decide) (by decide) (by decide)
